import Mathlib

/-
Verification of the git-salt command layer (src/ide/web/lib/git_salt/git_command.h).

The header under src/ contains two function bodies: the anonymous-namespace
helper parseString and the GitCommand constructor.  Those are embedded
directly from the source.  The bodies of GitCommand::parseArgs,
GitCommand::parseFileSystem, GitClone::runCommand, GitClone::ChromefsInit and
GitCommit::runCommand live in git_command.cc, which is not under src/; they
are modelled from the spec (each such definition says so in its doc comment).
-/

/-- Dynamic pp::Var values as they occur in the argument dictionary: a
string, an integer, a filesystem resource, or undefined (what
pp::VarDictionary::Get returns for an absent key). -/
inductive Var where
  | vUndefined : Var
  | vStr : String → Var
  | vInt : Int → Var
  | vFs : Nat → Var
deriving DecidableEq

/-- pp::VarDictionary: an association of string keys to dynamic values. -/
abbrev VarDictionary := List (String × Var)

/-- pp::VarDictionary::Get: the value at the key, or undefined when absent. -/
def dictGet (message : VarDictionary) (name : String) : Var :=
  match message.lookup name with
  | some v => v
  | none => Var.vUndefined

/-- pp::Var::is_string. -/
def Var.is_string : Var → Bool
  | Var.vStr _ => true
  | _ => false

/-- pp::Var::AsString (meaningful only when is_string holds). -/
def Var.asString : Var → String
  | Var.vStr s => s
  | _ => ""

/-- parseString from the source (git_command.h, anonymous namespace): gets
the value at name; if it is not a string it returns 1 without assigning to
option (the source carries a TODO to return a proper error code there);
otherwise it assigns the string to option and returns 0.  The C++ out
parameter is modelled by taking option's prior value and returning its
value after the call. -/
def parseString (message : VarDictionary) (name : String) (option : String) :
    Int × String :=
  let var_option := dictGet message name
  if var_option.is_string then (0, var_option.asString)
  else (1, option)

/-- The fields of class GitCommand that the claims observe.  The shared
git_repository slot is a reference member in the source; it is modelled as
part of SessionState below, passed explicitly.  The opaque GitSaltInstance
pointer is omitted. -/
structure GitCommand where
  subject : String
  args : VarDictionary
  fileSystem : Option Nat
  fullPath : String
  url : String
  error : Int
deriving DecidableEq

/-- GitCommand constructor from the source: its initializer list sets
_gitSalt, subject, _args and repo only.  The std::string members fullPath
and url and the pp::FileSystem member are default-constructed (empty / null
resource), but the int member error is not mentioned, so after construction
it holds an indeterminate value — whatever the underlying memory held —
modelled by the extra parameter indet. -/
def GitCommand.construct (subject : String) (args : VarDictionary)
    (indet : Int) : GitCommand :=
  { subject := subject, args := args, fileSystem := none,
    fullPath := "", url := "", error := indet }

/-- Modelled from the spec: constants.h is not under src/; section 7 gives
the error taxonomy as distinct integer codes, 0 meaning success. -/
def eMissingArgument : Int := 1

/-- Modelled from the spec: distinct code for a present key of the wrong
dynamic type. -/
def eInvalidArgumentType : Int := 2

/-- Modelled from the spec: distinct code for a filesystem argument that
does not resolve to a provisioned, mounted filesystem. -/
def eFilesystemResolutionFailure : Int := 3

/-- Modelled from the spec: distinct code for a mount-phase failure. -/
def eMountFailure : Int := 4

/-- Modelled from the spec: distinct code for an engine-level clone failure
(network, authentication, corrupt data). -/
def eEngineCloneFailure : Int := 5

/-- Modelled from the spec: distinct code for running Commit with no open
repository handle. -/
def eNoOpenRepository : Int := 6

/-- Modelled from the spec: distinct code for an engine-level commit
failure (empty index, invalid signature). -/
def eEngineCommitFailure : Int := 7

/-- Modelled from the spec: distinct code for Clone finding the shared repo
slot already holding an open handle. -/
def eHandleAlreadyOpen : Int := 8

/-- The version-control engine's state for the open repository: the HEAD
commit, the current branch reference, the staged index, the commit objects
(id paired with parent id) and the next fresh commit id. -/
structure EngineRepo where
  headCommit : Option Nat
  branchRef : Option Nat
  index : List String
  commits : List (Nat × Option Nat)
  nextId : Nat
deriving DecidableEq

/-- The dispatcher-owned session state the commands share: the repo slot (a
git_repository pointer, null or an opaque handle id), the engine state, the
mount flag, an opaque marker for the sandboxed filesystem contents, and the
filesystem identifiers the host has provisioned. -/
structure SessionState where
  repo : Option Nat
  engine : EngineRepo
  fsMounted : Bool
  fsData : Nat
  provisionedFs : List Nat
deriving DecidableEq

/-- Outcome of one engine clone call against a URL: success yields the
opened repository state and a fresh handle id; the failure modes are the
spec's network, authentication and corrupt-data errors. -/
inductive CloneOutcome where
  | success : EngineRepo → Nat → CloneOutcome
  | netFailure : CloneOutcome
  | authFailure : CloneOutcome
  | corruptFailure : CloneOutcome
deriving DecidableEq

/-- Modelled from the spec: GitClone::runCommand's body (git_command.cc) is
not under src/.  Spec section 4.2: refuse with HandleAlreadyOpen when the
shared repo slot is already non-null, leaving it untouched; otherwise mount
the filesystem (ChromefsInit), then clone against the command's url; on
success store the opened handle into the repo slot and return 0; on failure
return the distinct code, leave repo null and roll the mount back.  The
result is the error code with the list of observable states (initial,
after mount, final), so that transitions can be counted. -/
def GitClone.runTrace (cmd : GitCommand) (st : SessionState) (mountOk : Bool)
    (engineClone : String → CloneOutcome) : Int × List SessionState :=
  match st.repo with
  | some _ => (eHandleAlreadyOpen, [st, st])
  | none =>
    if mountOk then
      let mid := { st with fsMounted := true }
      match engineClone cmd.url with
      | CloneOutcome.success eng h =>
          (0, [st, mid, { mid with repo := some h, engine := eng }])
      | CloneOutcome.netFailure =>
          (eEngineCloneFailure, [st, mid, { mid with fsMounted := st.fsMounted }])
      | CloneOutcome.authFailure =>
          (eEngineCloneFailure, [st, mid, { mid with fsMounted := st.fsMounted }])
      | CloneOutcome.corruptFailure =>
          (eEngineCloneFailure, [st, mid, { mid with fsMounted := st.fsMounted }])
    else (eMountFailure, [st, st])

/-- GitClone::runCommand as error code plus final state: the last state of
the run trace. -/
def GitClone.runCommand (cmd : GitCommand) (st : SessionState)
    (mountOk : Bool) (engineClone : String → CloneOutcome) :
    Int × SessionState :=
  let r := GitClone.runTrace cmd st mountOk engineClone
  (r.1, r.2.getLastD st)

/-- Number of adjacent steps in a state sequence at which the repo slot
goes from null to non-null. -/
def nullToNonNull : List SessionState → Nat
  | [] => 0
  | [_] => 0
  | a :: b :: rest =>
      (if a.repo.isNone && b.repo.isSome then 1 else 0) +
        nullToNonNull (b :: rest)

/-- Modelled from the spec: GitCommit::runCommand's body (git_command.cc)
is not under src/.  Spec section 4.3: require the repo slot non-null (else
the distinct NoOpenRepository code with nothing touched); read the staged
index; an empty index or an invalid signature is an engine commit failure
that changes nothing; otherwise create a commit object whose parent is the
current HEAD, clear the index, and advance HEAD and the branch reference to
the new commit id, atomically. -/
def GitCommit.runCommand (cmd : GitCommand) (st : SessionState)
    (sigValid : Bool) : Int × SessionState :=
  match st.repo with
  | none => (eNoOpenRepository, st)
  | some _ =>
    if st.engine.index.isEmpty then (eEngineCommitFailure, st)
    else if !sigValid then (eEngineCommitFailure, st)
    else
      let newId := st.engine.nextId
      (0, { st with engine :=
        { headCommit := some newId
          branchRef := some newId
          index := []
          commits := (newId, st.engine.headCommit) :: st.engine.commits
          nextId := newId + 1 } })

/-- Modelled from the spec: GitCommand::parseFileSystem's body
(git_command.cc) is not under src/.  Spec section 4.1 filesystem-binding
rule: the argument must be a filesystem reference (absent or wrong-typed is
the ordinary argument error), and its identifier must map to a filesystem
the host has provisioned (otherwise the distinct resolution failure). -/
def parseFileSystem (message : VarDictionary) (name : String)
    (st : SessionState) : Int × Option Nat :=
  match dictGet message name with
  | Var.vFs fsId =>
      if fsId ∈ st.provisionedFs then (0, some fsId)
      else (eFilesystemResolutionFailure, none)
  | Var.vUndefined => (eMissingArgument, none)
  | _ => (eInvalidArgumentType, none)

/-- The optional path suffix appended when forming fullPath. -/
def pathSuffix (args : VarDictionary) : String :=
  match dictGet args "path" with
  | Var.vStr p => p
  | _ => ""

/-- Modelled from the spec: GitCommand::parseArgs's body (git_command.cc)
is not under src/.  Spec section 4.1: validate and extract the fields the
concrete operation needs from the argument bag into the command's own
fields (url, fileSystem, fullPath, error), reporting a distinct code for an
absent key versus a present key of the wrong dynamic type, and mutate
nothing else — in particular the session state (repo slot, engine,
filesystem) is returned untouched.  Clone requires url (string) and a
resolvable filesystem argument; commit requires message and author
(strings). -/
def parseArgs (cmd : GitCommand) (st : SessionState) :
    Int × GitCommand × SessionState :=
  if cmd.subject = "clone" then
    match dictGet cmd.args "url" with
    | Var.vStr u =>
      let pf := parseFileSystem cmd.args "filesystem" st
      if pf.1 = 0 then
        let cmd2 := { cmd with url := u, fileSystem := pf.2 }
        (0, { cmd2 with fullPath := "/" ++ pathSuffix cmd.args, error := 0 }, st)
      else (pf.1, { cmd with error := pf.1 }, st)
    | Var.vUndefined =>
        (eMissingArgument, { cmd with error := eMissingArgument }, st)
    | _ => (eInvalidArgumentType, { cmd with error := eInvalidArgumentType }, st)
  else if cmd.subject = "commit" then
    match dictGet cmd.args "message", dictGet cmd.args "author" with
    | Var.vStr _, Var.vStr _ => (0, { cmd with error := 0 }, st)
    | Var.vUndefined, _ =>
        (eMissingArgument, { cmd with error := eMissingArgument }, st)
    | _, Var.vUndefined =>
        (eMissingArgument, { cmd with error := eMissingArgument }, st)
    | _, _ =>
        (eInvalidArgumentType, { cmd with error := eInvalidArgumentType }, st)
  else (0, { cmd with error := 0 }, st)

/-- True when the argument bag lacks a required argument for the subject,
or holds one of the wrong dynamic type. -/
def missingOrMistyped (subject : String) (args : VarDictionary) : Bool :=
  if subject = "clone" then
    !(dictGet args "url").is_string ||
      !(match dictGet args "filesystem" with
        | Var.vFs _ => true
        | _ => false)
  else if subject = "commit" then
    !(dictGet args "message").is_string || !(dictGet args "author").is_string
  else false

/-- Result of one dispatched request: the surfaced error code, whether the
run phase was invoked at all, and the session state afterwards. -/
structure RunLog where
  error : Int
  ranCommand : Bool
  post : SessionState
deriving DecidableEq

/-- Modelled from the spec: the dispatcher (external collaborator wired in
section 2) instantiates the command for the subject, calls parseArgs, and
invokes runCommand only when parsing returned 0; a parse error is terminal
for the request. -/
def handleRequest (cmd : GitCommand) (st : SessionState) (mountOk : Bool)
    (engineClone : String → CloneOutcome) (sigValid : Bool) : RunLog :=
  let p := parseArgs cmd st
  if p.1 ≠ 0 then ⟨p.1, false, p.2.2⟩
  else if cmd.subject = "clone" then
    let r := GitClone.runCommand p.2.1 p.2.2 mountOk engineClone
    ⟨r.1, true, r.2⟩
  else if cmd.subject = "commit" then
    let r := GitCommit.runCommand p.2.1 p.2.2 sigValid
    ⟨r.1, true, r.2⟩
  else ⟨0, false, p.2.2⟩

/-- A cloned repository state used as a concrete engine-clone result: HEAD
at commit 0, one staged change, one commit object. -/
def engOk : EngineRepo :=
  { headCommit := some 0, branchRef := some 0, index := ["f"],
    commits := [(0, none)], nextId := 1 }

/-- A session state before any clone: repo slot null, nothing mounted,
filesystem 5 provisioned. -/
def stNull : SessionState :=
  { repo := none,
    engine := { headCommit := none, branchRef := none, index := [],
                commits := [], nextId := 0 },
    fsMounted := false, fsData := 0, provisionedFs := [5] }

/-- A session state with an open repository handle. -/
def stOpen : SessionState :=
  { repo := some 1, engine := engOk, fsMounted := true, fsData := 0,
    provisionedFs := [5] }

/-- An engine-clone oracle that succeeds with engOk and handle 1. -/
def ecOk : String → CloneOutcome :=
  fun _ => CloneOutcome.success engOk 1

/-- A well-formed clone request. -/
def cmdClone : GitCommand :=
  GitCommand.construct "clone"
    [("url", Var.vStr "https://example/repo.git"), ("filesystem", Var.vFs 5)] 0

/-- A clone request whose argument bag lacks the url argument. -/
def cmdCloneNoUrl : GitCommand :=
  GitCommand.construct "clone" ([] : VarDictionary) 0

/-- A well-formed commit request. -/
def cmdCommit : GitCommand :=
  GitCommand.construct "commit"
    [("message", Var.vStr "fix"), ("author", Var.vStr "a@example.com")] 0

/-- C10: whenever parseString returns a non-zero code (the value at the key
is absent or not a string), the out parameter option is left exactly equal
to its prior value: the helper assigns to option only after the is_string
check succeeds. -/
theorem parseString_failure_preserves_option (message : VarDictionary)
    (name : String) (prior : String)
    (h : (parseString message name prior).1 ≠ 0) :
    (parseString message name prior).2 = prior := by
  by_cases hs : (dictGet message name).is_string
  · exfalso
    apply h
    simp [parseString, hs]
  · simp [parseString, hs]

/-- Witness for C10 at a concrete input: an empty argument bag lacks the
key, parseString returns 1 and leaves the prior value in place. -/
theorem parseString_failure_preserves_option_witness :
    (parseString ([] : VarDictionary) "url" "prior").1 ≠ 0 ∧
    (parseString ([] : VarDictionary) "url" "prior").2 = "prior" :=
  ⟨by decide, parseString_failure_preserves_option ([] : VarDictionary) "url"
    "prior" (by decide)⟩

/-- C6: parseString, as written in the source, returns the same code 1 both
for an absent key and for a present key whose value is not a string, so the
missing-argument and invalid-argument-type cases are collapsed into one
code rather than being distinct (the source marks this with a TODO to
return a proper error code); the success case does return 0 and assigns the
string. -/
theorem parseString_collapses_missing_and_mistyped :
    (parseString ([] : VarDictionary) "url" "").1 = 1 ∧
    (parseString [("url", Var.vInt 5)] "url" "").1 = 1 ∧
    (parseString [("url", Var.vStr "https://example/repo.git")] "url" "").1 = 0 ∧
    (parseString [("url", Var.vStr "https://example/repo.git")] "url" "").2 =
      "https://example/repo.git" :=
  ⟨rfl, rfl, rfl, rfl⟩

/-- C8: the GitCommand constructor's initializer list does not mention the
int member error, so a freshly constructed command's error field holds
whatever the underlying memory held (modelled by the indet parameter), not
necessarily 0: with memory residue 7 the fresh command reports error 7. -/
theorem construct_error_indeterminate :
    (GitCommand.construct "clone" ([] : VarDictionary) 7).error = 7 ∧
    (GitCommand.construct "clone" ([] : VarDictionary) 7).error ≠ 0 :=
  ⟨rfl, by decide⟩

/-- C1: for a GitClone run starting with the shared repo slot null, a 0
return means the final repo slot is non-null and the observable state
sequence makes the null-to-non-null transition exactly once, while a
non-zero return leaves the repo slot null (and no transition happens). -/
theorem clone_from_null (cmd : GitCommand) (st : SessionState)
    (mountOk : Bool) (engineClone : String → CloneOutcome)
    (h : st.repo = none) :
    ((GitClone.runTrace cmd st mountOk engineClone).1 = 0 →
      ((GitClone.runTrace cmd st mountOk engineClone).2.getLastD st).repo ≠ none ∧
      nullToNonNull (GitClone.runTrace cmd st mountOk engineClone).2 = 1) ∧
    ((GitClone.runTrace cmd st mountOk engineClone).1 ≠ 0 →
      ((GitClone.runTrace cmd st mountOk engineClone).2.getLastD st).repo = none ∧
      nullToNonNull (GitClone.runTrace cmd st mountOk engineClone).2 = 0) := by
  unfold GitClone.runTrace
  rw [h]
  by_cases hm : mountOk
  · simp only [hm, if_true]
    cases ho : engineClone cmd.url <;>
      simp [nullToNonNull, h, eEngineCloneFailure]
  · simp [hm, nullToNonNull, h, eMountFailure]

/-- Witness for C1 at a concrete input: from the null-slot session state,
with mount succeeding and the engine clone succeeding, the trace makes the
transition exactly once. -/
theorem clone_from_null_witness :
    stNull.repo = none ∧
    (((GitClone.runTrace cmdClone stNull true ecOk).1 = 0 →
      ((GitClone.runTrace cmdClone stNull true ecOk).2.getLastD stNull).repo ≠ none ∧
      nullToNonNull (GitClone.runTrace cmdClone stNull true ecOk).2 = 1) ∧
    ((GitClone.runTrace cmdClone stNull true ecOk).1 ≠ 0 →
      ((GitClone.runTrace cmdClone stNull true ecOk).2.getLastD stNull).repo = none ∧
      nullToNonNull (GitClone.runTrace cmdClone stNull true ecOk).2 = 0)) :=
  ⟨rfl, clone_from_null cmdClone stNull true ecOk rfl⟩

/-- C2: a GitClone run that finds the shared repo slot already non-null
returns the distinct HandleAlreadyOpen code (non-zero) and leaves the slot
exactly as it was: the existing handle is neither replaced nor cleared. -/
theorem clone_handle_already_open (cmd : GitCommand) (st : SessionState)
    (mountOk : Bool) (engineClone : String → CloneOutcome) (hid : Nat)
    (h : st.repo = some hid) :
    (GitClone.runCommand cmd st mountOk engineClone).1 = eHandleAlreadyOpen ∧
    eHandleAlreadyOpen ≠ 0 ∧
    (GitClone.runCommand cmd st mountOk engineClone).2 = st := by
  unfold GitClone.runCommand GitClone.runTrace
  rw [h]
  exact ⟨rfl, by decide, rfl⟩

/-- Witness for C2 at a concrete input: cloning into the session that
already holds handle 1 fails with HandleAlreadyOpen and keeps the state. -/
theorem clone_handle_already_open_witness :
    stOpen.repo = some 1 ∧
    ((GitClone.runCommand cmdClone stOpen true ecOk).1 = eHandleAlreadyOpen ∧
    eHandleAlreadyOpen ≠ 0 ∧
    (GitClone.runCommand cmdClone stOpen true ecOk).2 = stOpen) :=
  ⟨rfl, clone_handle_already_open cmdClone stOpen true ecOk 1 rfl⟩

/-- C3: a GitCommit run with the shared repo slot null returns the distinct
NoOpenRepository code — not the generic engine-failure codes — and returns
the session state (engine and filesystem included) entirely unchanged. -/
theorem commit_no_open_repository (cmd : GitCommand) (st : SessionState)
    (sigValid : Bool) (h : st.repo = none) :
    GitCommit.runCommand cmd st sigValid = (eNoOpenRepository, st) ∧
    eNoOpenRepository ≠ 0 ∧
    eNoOpenRepository ≠ eEngineCommitFailure ∧
    eNoOpenRepository ≠ eEngineCloneFailure := by
  unfold GitCommit.runCommand
  rw [h]
  exact ⟨rfl, by decide, by decide, by decide⟩

/-- Witness for C3 at a concrete input: committing with no prior clone in
the session fails with NoOpenRepository and changes nothing. -/
theorem commit_no_open_repository_witness :
    stNull.repo = none ∧
    (GitCommit.runCommand cmdCommit stNull true = (eNoOpenRepository, stNull) ∧
    eNoOpenRepository ≠ 0 ∧
    eNoOpenRepository ≠ eEngineCommitFailure ∧
    eNoOpenRepository ≠ eEngineCloneFailure) :=
  ⟨rfl, commit_no_open_repository cmdCommit stNull true rfl⟩

/-- C4: a GitCommit run on an open repository advances the branch reference
atomically: on a 0 return the branch reference equals the id of the newly
created commit (whose parent is the old HEAD, prepended to the commit
objects), and on a non-zero return the branch reference and the commit
objects are exactly the pre-call ones — no partial commit object is left
referenced. -/
theorem commit_atomic_branch_advance (cmd : GitCommand) (st : SessionState)
    (sigValid : Bool) (hid : Nat) (h : st.repo = some hid) :
    ((GitCommit.runCommand cmd st sigValid).1 = 0 →
      (GitCommit.runCommand cmd st sigValid).2.engine.branchRef =
        some st.engine.nextId ∧
      (GitCommit.runCommand cmd st sigValid).2.engine.commits =
        (st.engine.nextId, st.engine.headCommit) :: st.engine.commits) ∧
    ((GitCommit.runCommand cmd st sigValid).1 ≠ 0 →
      (GitCommit.runCommand cmd st sigValid).2.engine.branchRef =
        st.engine.branchRef ∧
      (GitCommit.runCommand cmd st sigValid).2.engine.commits =
        st.engine.commits) := by
  unfold GitCommit.runCommand
  rw [h]
  by_cases he : st.engine.index.isEmpty <;> by_cases hs : sigValid <;>
    simp [he, hs, eEngineCommitFailure]

/-- Witness for C4 at a concrete input: committing on the open session with
a staged change and a valid signature succeeds and the branch reference
moves to the new commit id 1. -/
theorem commit_atomic_branch_advance_witness :
    stOpen.repo = some 1 ∧
    (((GitCommit.runCommand cmdCommit stOpen true).1 = 0 →
      (GitCommit.runCommand cmdCommit stOpen true).2.engine.branchRef =
        some stOpen.engine.nextId ∧
      (GitCommit.runCommand cmdCommit stOpen true).2.engine.commits =
        (stOpen.engine.nextId, stOpen.engine.headCommit) :: stOpen.engine.commits) ∧
    ((GitCommit.runCommand cmdCommit stOpen true).1 ≠ 0 →
      (GitCommit.runCommand cmdCommit stOpen true).2.engine.branchRef =
        stOpen.engine.branchRef ∧
      (GitCommit.runCommand cmdCommit stOpen true).2.engine.commits =
        stOpen.engine.commits)) :=
  ⟨rfl, commit_atomic_branch_advance cmdCommit stOpen true 1 rfl⟩

/-- C5: when the argument bag lacks a required argument for the subject (or
holds one of the wrong dynamic type), parseArgs returns a non-zero code,
and the dispatched request never reaches the run phase: handleRequest
reports ranCommand = false. -/
theorem parse_failure_blocks_run (cmd : GitCommand) (st : SessionState)
    (mountOk : Bool) (engineClone : String → CloneOutcome) (sigValid : Bool)
    (h : missingOrMistyped cmd.subject cmd.args = true) :
    (parseArgs cmd st).1 ≠ 0 ∧
    (handleRequest cmd st mountOk engineClone sigValid).ranCommand = false := by
  have hp : (parseArgs cmd st).1 ≠ 0 := by
    unfold missingOrMistyped at h
    unfold parseArgs
    by_cases hc : cmd.subject = "clone"
    · simp only [hc, if_true] at h ⊢
      cases hu : dictGet cmd.args "url"
      · simp [hu, eMissingArgument]
      · simp only [hu, Var.is_string, Bool.not_true, Bool.false_or] at h
        cases hf : dictGet cmd.args "filesystem"
        · simp [hu, hf, parseFileSystem, eMissingArgument]
        · simp [hu, hf, parseFileSystem, eInvalidArgumentType]
        · simp [hu, hf, parseFileSystem, eInvalidArgumentType]
        · simp [hf] at h
      · simp [hu, eInvalidArgumentType]
      · simp [hu, eInvalidArgumentType]
    · by_cases hk : cmd.subject = "commit"
      · simp only [hc, if_false, hk, if_true] at h ⊢
        cases hm : dictGet cmd.args "message" <;>
          cases ha : dictGet cmd.args "author" <;>
          simp_all [Var.is_string, eMissingArgument, eInvalidArgumentType]
      · simp only [hc, hk, if_false] at h
        exact absurd h (by decide)
  refine ⟨hp, ?_⟩
  simp only [handleRequest]
  rw [if_pos hp]

/-- Witness for C5 at a concrete input: a clone request with an empty
argument bag fails to parse and the run phase is never invoked. -/
theorem parse_failure_blocks_run_witness :
    missingOrMistyped cmdCloneNoUrl.subject cmdCloneNoUrl.args = true ∧
    ((parseArgs cmdCloneNoUrl stNull).1 ≠ 0 ∧
    (handleRequest cmdCloneNoUrl stNull true ecOk true).ranCommand = false) :=
  ⟨by decide, parse_failure_blocks_run cmdCloneNoUrl stNull true ecOk true
    (by decide)⟩

/-- C7: parseArgs is pure validation: whatever it returns, the session
state (repo slot, engine state, mount and filesystem state) is returned
unchanged, and on the command itself only the own fields url, fileSystem,
fullPath and error are written — subject and args are preserved. -/
theorem parseArgs_pure_validation (cmd : GitCommand) (st : SessionState) :
    (parseArgs cmd st).2.2 = st ∧
    (parseArgs cmd st).2.1.subject = cmd.subject ∧
    (parseArgs cmd st).2.1.args = cmd.args := by
  unfold parseArgs
  repeat' split
  all_goals dsimp only
  repeat' split
  all_goals exact ⟨rfl, rfl, rfl⟩

/-- C9: from a null repo slot, a clone whose mount and engine call succeed
returns 0, and an immediately following commit with a valid signature and a
non-empty staged index returns 0 and creates a commit whose parent is the
HEAD established by the clone. -/
theorem clone_then_commit_roundtrip (cmd1 cmd2 : GitCommand)
    (st : SessionState) (engineClone : String → CloneOutcome)
    (eng : EngineRepo) (hd hid : Nat)
    (h0 : st.repo = none)
    (h1 : engineClone cmd1.url = CloneOutcome.success eng hid)
    (h2 : eng.headCommit = some hd)
    (h3 : eng.index ≠ []) :
    (GitClone.runCommand cmd1 st true engineClone).1 = 0 ∧
    (GitCommit.runCommand cmd2
      (GitClone.runCommand cmd1 st true engineClone).2 true).1 = 0 ∧
    (GitCommit.runCommand cmd2
      (GitClone.runCommand cmd1 st true engineClone).2
      true).2.engine.commits.head? = some (eng.nextId, some hd) := by
  have hie : eng.index.isEmpty = false := by
    cases hi : eng.index
    · exact absurd hi h3
    · rfl
  unfold GitClone.runCommand GitClone.runTrace
  rw [h0, h1]
  simp [GitCommit.runCommand, hie, h2]

/-- Witness for C9 at a concrete input: cloning into the null session with
the succeeding oracle, then committing, yields commit 1 with parent 0, the
HEAD established by the clone. -/
theorem clone_then_commit_roundtrip_witness :
    stNull.repo = none ∧
    ecOk cmdClone.url = CloneOutcome.success engOk 1 ∧
    engOk.headCommit = some 0 ∧
    engOk.index ≠ [] ∧
    ((GitClone.runCommand cmdClone stNull true ecOk).1 = 0 ∧
    (GitCommit.runCommand cmdCommit
      (GitClone.runCommand cmdClone stNull true ecOk).2 true).1 = 0 ∧
    (GitCommit.runCommand cmdCommit
      (GitClone.runCommand cmdClone stNull true ecOk).2
      true).2.engine.commits.head? = some (engOk.nextId, some 0)) :=
  ⟨rfl, rfl, rfl, by decide,
    clone_then_commit_roundtrip cmdClone cmdCommit stNull ecOk engOk 0 1
      rfl rfl rfl (by decide)⟩
